import Mathlib

/-!
Verification of the budget-forced decoding controller of the `deepseek-s1`
repository against its natural-language specification.

The development shallowly embeds the relevant Python code:

* `src/verl/workers/rollout/stop_criteria.py` — batched terminator / EOS
  matching (`get_matching_eos_mask`, `get_matching_seq_mask`,
  `MatchingTokensStoppingCriteria`);
* `src/verl/workers/rollout/hf_rollout.py` — `budget_forcing_gen`,
  `HFRollout.__init__`, `HFRollout._generate_minibatch`;
* `src/verl/third_party/vllm/vllm_v_0_6_3/llm.py` — `LLM.__init__`,
  `LLM._run_engine`.

Modelling conventions:

* A 2-D integer tensor of token ids is a `List (List Nat)` (one inner list
  per batch row); rectangularity is a hypothesis where a proof needs it.
* The external generator (`model.generate` / the vLLM engine) is opaque: it
  is a function parameter, or, for the vLLM engine, a finite script of step
  outputs.
* Python `assert` failures and runtime errors are `Except` errors / `Option`
  `none`; the unbounded `while` loop of `budget_forcing_gen` is modelled
  with explicit fuel, `Except.error .outOfFuel` marking that the guard was
  still true when the fuel ran out.
-/

namespace S1

/-- A batch of token-id sequences, one row per request
(a 2-D integer tensor). -/
abbrev Batch := List (List Nat)

/-- Number of columns of a (rectangular, nonempty) batch, i.e. the tensor
shape `[1]`. -/
def cols (b : Batch) : Nat := (b.head?.getD []).length

/-! ## stop_criteria.py -/

/-- A Python value appearing as the right operand of a tensor comparison.
Line 9 of `stop_criteria.py` reads `matching_idx = last_token == int`: the
right operand is the *builtin type* `int`, not the `eos` argument. -/
inductive PyVal where
  | pyInt (n : Nat)
  | pyTypeInt
  deriving DecidableEq, Repr

/-- Elementwise tensor equality against a Python object. Comparing a tensor
element with a non-numeric object (such as the type `int`) yields `False`:
PyTorch's `Tensor.__eq__` returns `NotImplemented` for operands it cannot
convert, and Python's fallback identity comparison of an integer with a type
object is `False`. -/
def pyEq : PyVal → PyVal → Bool
  | .pyInt a, .pyInt b => a == b
  | _, _ => false

/-- Model of `get_matching_eos_mask` (stop_criteria.py lines 7-10).
The source compares `input_ids[:, -1]` with the builtin type `int`
(line 9: `matching_idx = last_token == int`); the `eos` parameter is never
used, so every entry of the resulting mask is false. -/
def get_matching_eos_mask (input_ids : Batch) (eos : Nat) : List Bool :=
  let _ := eos   -- the source receives `eos` but line 9 does not consult it
  input_ids.map (fun row => pyEq (.pyInt (row.getLast?.getD 0)) .pyTypeInt)

/-- Modelled from the spec: `matchEos(lastTokens, eosId)` is "true iff the
final generated token equals `eosId`" (spec §4.2). This is the behaviour
the claim attributes to `get_matching_eos_mask`; it is stated separately so
the two can be compared. -/
def matchEos_spec (input_ids : Batch) (eos : Nat) : List Bool :=
  input_ids.map (fun row => row.getLast?.getD 0 == eos)

/-- Last three tokens of a row, `input_ids[:, -3:]`: the whole row when it
is shorter than 3. -/
def lastThree (row : List Nat) : List Nat := row.drop (row.length - 3)

/-- Broadcast elementwise equality of a 1-D tail (length `k`) against a 1-D
pattern (length `m`) followed by `.all` over the trailing axis, as
`(last_three.unsqueeze(1) == pattern.unsqueeze(0)).all(dim=-1)` computes
(stop_criteria.py lines 62-65). Broadcasting succeeds iff `k = m`, `k = 1`
or `m = 1`; any other shape pair raises a runtime error, modelled as
`none`. -/
def bcastEqAll (tail pat : List Nat) : Option Bool :=
  if tail.length = pat.length then some (tail == pat)
  else if tail.length = 1 then some (pat.all (fun p => tail.all (fun t => t == p)))
  else if pat.length = 1 then some (tail.all (fun t => pat.all (fun p => t == p)))
  else none

/-- Map a fallible function over a list, failing as soon as one element
fails (the tensor operation either succeeds everywhere or raises). -/
def allSomeMap {α β : Type} : List α → (α → Option β) → Option (List β)
  | [], _ => some []
  | a :: as, f =>
    match f a, allSomeMap as f with
    | some b, some bs => some (b :: bs)
    | _, _ => none

/-- Model of `get_matching_seq_mask` (stop_criteria.py lines 54-70): for
each row, compare its last (up to) three tokens against every pattern by
broadcasting and report whether any pattern matched fully. -/
def get_matching_seq_mask (input_ids patterns : Batch) : Option (List Bool) :=
  allSomeMap input_ids (fun row =>
    (allSomeMap patterns (fun pat => bcastEqAll (lastThree row) pat)).map
      (fun ms => ms.any id))

/-- The hard-coded "think" token id of stop_criteria.py line 90 /
llm.py line 156. -/
def think_token_id : Nat := 26865

/-- Python's `str.endswith`, computed structurally on the character
list. -/
def pyEndsWith (s post : String) : Bool :=
  List.isPrefixOf post.data.reverse s.data.reverse

/-- Python's `str.startswith`, computed structurally on the character
list. -/
def pyStartsWith (s pre : String) : Bool :=
  List.isPrefixOf pre.data s.data

/-- Token ids of the vocabulary whose string form ends with `"</"`
(stop_criteria.py line 94 / llm.py line 160). -/
def left_matching_token_ids (vocab : List (String × Nat)) : List Nat :=
  (vocab.filter (fun p => pyEndsWith p.1 "</")).map (fun p => p.2)

/-- Token ids of the vocabulary whose string form starts with `">"`
(stop_criteria.py line 95 / llm.py line 161). -/
def right_matching_token_ids (vocab : List (String × Nat)) : List Nat :=
  (vocab.filter (fun p => pyStartsWith p.1 ">")).map (fun p => p.2)

/-- The cross product `left × {think} × right` of candidate triples, in
`itertools.product` order (stop_criteria.py line 97 / llm.py line 163). -/
def think_combos (vocab : List (String × Nat)) : Batch :=
  (left_matching_token_ids vocab).flatMap
    (fun l => (right_matching_token_ids vocab).map
      (fun r => [l, think_token_id, r]))

/-- Model of `MatchingTokensStoppingCriteria.__init__` (stop_criteria.py
lines 86-97). The triples are assembled with `torch.stack([...])`, which
raises `RuntimeError: stack expects a non-empty TensorList` when the
candidate product is empty; that failure is modelled as `none`. -/
def matchingTokensStoppingCriteria_init (vocab : List (String × Nat)) :
    Option Batch :=
  let combos := think_combos vocab
  if combos.isEmpty then none else some combos

/-! ## hf_rollout.py — budget_forcing_gen -/

/-- The opaque generator behind `model.generate`: it receives the current
input ids, the attention mask, `max_new_tokens`, and whether the two early
stopping criteria are installed, and returns the grown batch. The fixed
sampling arguments (`do_sample`, `eos_token_id`, `pad_token_id`,
`generation_config`, `use_cache`) are the same at every call site and are
folded into the function. -/
abbrev GenFn := Batch → Batch → Nat → Bool → Batch

/-- Errors `budget_forcing_gen` can surface. `assertionError` is the failed
budget-margin `assert` of line 60; `stackError` is the `torch.stack`
failure of `MatchingTokensStoppingCriteria.__init__`; `shapeError` is a
broadcasting failure inside `get_matching_seq_mask`; `outOfFuel` marks that
the `while` guard was still true when the modelling fuel ran out (the
source loop has no such exit and simply keeps running). -/
inductive BFErr where
  | assertionError
  | stackError
  | shapeError
  | outOfFuel
  deriving DecidableEq, Repr

/-- Replace the last three positions of a row with the replacement run, as
`output_seqs[matching_seq_idx, -3:] = replacement_seq` does for a selected
row (hf_rollout.py line 97). -/
def spliceTerminatorRow (repl row : List Nat) : List Nat :=
  row.take (row.length - 3) ++ repl

/-- Replace the last position of a row with the newline token, as
`output_seqs[matching_eos_mask, -1] = replace_tokens["\n"]` does for a
selected row (hf_rollout.py line 98). -/
def spliceEosRow (nlTok : Nat) (row : List Nat) : List Nat :=
  row.take (row.length - 1) ++ [nlTok]

/-- One row of the two in-place assignments of hf_rollout.py lines 97-98:
the terminator splice is applied first (where the sequence mask selects the
row), then the EOS splice (where the EOS mask selects it). -/
def spliceRowStep (repl : List Nat) (nlTok : Nat) (sm em : Bool)
    (row : List Nat) : List Nat :=
  let r1 := if sm then spliceTerminatorRow repl row else row
  if em then spliceEosRow nlTok r1 else r1

/-- The two batched in-place assignments of hf_rollout.py lines 95-98
applied rowwise, driven by the sequence-match mask and the EOS mask. -/
def applySplices (repl : List Nat) (nlTok : Nat) (b : Batch)
    (sm em : List Bool) : Batch :=
  (b.zip (sm.zip em)).map (fun p => spliceRowStep repl nlTok p.2.1 p.2.2 p.1)

/-- Per-request generation state threaded through the Forcing loop of
`budget_forcing_gen`: the current output buffer, the attention mask of the
round's input, and the `prompt_length` bookkeeping variable. -/
structure LoopSt where
  output_seqs : Batch
  attention_mask : Batch
  prompt_length : Nat
  deriving Repr

/-- Extend each attention-mask row with ones for the columns the output
gained beyond `prompt_length`, as
`torch.cat([attention_mask, torch.ones_like(output_seqs[:, prompt_length:])], dim=-1)`
does (hf_rollout.py lines 100 and 120). -/
def extendAttn (prompt_length : Nat) (attn out : Batch) : Batch :=
  attn.zipWith (fun arow orow =>
    arow ++ List.replicate (orow.length - prompt_length) 1) out

/-- One iteration of the Forcing loop body (hf_rollout.py lines 93-116)
minus the guard: compute both masks, splice, extend the attention mask,
regenerate. `max_new` is `max_budget_cut - current_used_budget`, which the
source computes from variables that the loop never changes. The generator
is invoked only when the masks were computed without a shape error. -/
def bfBody (gen : GenFn) (combos : Batch) (tok_eos : Nat)
    (repl : List Nat) (nlTok : Nat) (max_new : Nat) (st : LoopSt) :
    Except BFErr LoopSt :=
  match get_matching_seq_mask st.output_seqs combos with
  | none => .error .shapeError
  | some seqMask =>
    let eosMask := get_matching_eos_mask st.output_seqs tok_eos
    let spliced := applySplices repl nlTok st.output_seqs seqMask eosMask
    let new_attn := extendAttn st.prompt_length st.attention_mask spliced
    let out := gen spliced new_attn max_new true
    .ok ⟨out, new_attn, cols spliced⟩

/-- The Forcing `while` loop of hf_rollout.py lines 92-117, with explicit
fuel. Faithfully to the source, the guard variable `current_used_budget` is
set once before the loop (line 90) and never reassigned inside it, so it is
a fixed parameter here. The pair's second component counts generator
invocations made by the loop. -/
def bfLoop (gen : GenFn) (combos : Batch) (tok_eos : Nat)
    (repl : List Nat) (nlTok : Nat) (max_new min_budget current_used_budget : Nat) :
    Nat → LoopSt → Except BFErr LoopSt × Nat
  | 0, st =>
    if current_used_budget < min_budget then (.error .outOfFuel, 0) else (.ok st, 0)
  | fuel + 1, st =>
    if current_used_budget < min_budget then
      match bfBody gen combos tok_eos repl nlTok max_new st with
      | .error e => (.error e, 0)
      | .ok st' =>
        let r := bfLoop gen combos tok_eos repl nlTok max_new min_budget
          current_used_budget fuel st'
        (r.1, r.2 + 1)
    else (.ok st, 0)

/-- The epilogue of `budget_forcing_gen` after the Forcing loop: propagate
a loop error, or run the final unconstrained round (hf_rollout.py lines
120-131: extend the attention mask once more and generate with
`max_new_tokens = max_budget - current_used_budget` and no stopping
criteria), adjusting the generator-invocation count for the first and final
rounds. -/
def bfFinish (gen : GenFn) (max_budget current_used_budget : Nat) :
    Except BFErr LoopSt × Nat → Except BFErr Batch × Nat
  | (.error e, n) => (.error e, n + 1)
  | (.ok st, n) =>
    (.ok (gen st.output_seqs
        (extendAttn st.prompt_length st.attention_mask st.output_seqs)
        (max_budget - current_used_budget) false),
      n + 2)

/-- Model of `budget_forcing_gen` (hf_rollout.py lines 37-133). Parameters
mirror the source: the generator, the tokenizer vocabulary (from which the
stopping criteria derive the terminator triples, line 66), the eos id used
by `get_matching_eos_mask` (line 94), the budgets, and the three
replacement token ids of the `replace_tokens` dict. The result pairs the
outcome with the number of generator invocations. -/
def budget_forcing_gen (gen : GenFn) (vocab : List (String × Nat))
    (tok_eos min_budget max_budget nlTok waitTok commaTok : Nat)
    (input_ids input_attention_masks : Batch) (fuel : Nat) :
    Except BFErr Batch × Nat :=
  if 128 < max_budget - min_budget then  -- assert max_budget - min_budget > 128
    match matchingTokensStoppingCriteria_init vocab with
    | none => (.error .stackError, 0)
    | some combos =>
      let max_budget_cut := max_budget - 128
      let replacement_seq := [nlTok, waitTok, commaTok]
      let init_prompt_len := cols input_ids
      -- first round (lines 76-86), with both stopping criteria installed
      let output_seqs := gen input_ids input_attention_masks max_budget_cut true
      let current_used_budget := cols output_seqs - init_prompt_len
      bfFinish gen max_budget current_used_budget
        (bfLoop gen combos tok_eos replacement_seq nlTok
          (max_budget_cut - current_used_budget) min_budget current_used_budget
          fuel ⟨output_seqs, input_attention_masks, init_prompt_len⟩)
  else (.error .assertionError, 0)

/-! ## Wrapper constructors -/

/-- Errors the wrapper constructors can raise: the failed
`assert len(wait_ids) == 1`, or an `IndexError` from taking `[0]` of an
empty encoding. -/
inductive InitErr where
  | assertionError
  | indexError
  deriving DecidableEq, Repr

/-- Model of `HFRollout.__init__` (hf_rollout.py lines 138-152). The
tokenizer is abstracted to its encoding function `encode s =
tokenizer(s).input_ids`. On success the result is the `replacement_tokens`
dict, as the triple of its `"\n"`, `"Wait"` and `","` entries. -/
def hfRollout_init (encode : String → List Nat) :
    Except InitErr (Nat × Nat × Nat) :=
  if (encode "Wait").length = 1 then
    match encode "\n", encode "," with
    | nlid :: _, cid :: _ => .ok (nlid, (encode "Wait").headD 0, cid)
    | _, _ => .error .indexError
  else .error .assertionError

/-- Model of the budget-forcing part of the vLLM `LLM.__init__`
(llm.py lines 151-173): the `think_tokens` list is built as a plain Python
list (no `torch.stack`, so an empty candidate product yields an empty list
rather than an error), then the replacement tokens are derived exactly as
in `HFRollout.__init__`. -/
def llm_init (vocab : List (String × Nat)) (encode : String → List Nat) :
    Except InitErr (Batch × List Nat) :=
  if (encode "Wait").length = 1 then
    match encode "\n", encode "," with
    | nlid :: _, cid :: _ =>
      .ok (think_combos vocab, [nlid, (encode "Wait").headD 0, cid])
    | _, _ => .error .indexError
  else .error .assertionError

/-! ## hf_rollout.py — _generate_minibatch -/

/-- Errors `_generate_minibatch` can raise: an error propagated out of
`budget_forcing_gen`, or the `UnboundLocalError` of line 230 (`seq =
output_seqs` with `output_seqs` never assigned on the budget-forcing
branch). -/
inductive MBErr where
  | unboundLocalError
  | bf (e : BFErr)
  deriving DecidableEq, Repr

/-- Model of the generation core of `HFRollout._generate_minibatch`
(hf_rollout.py lines 163-248), restricted to the token-id buffers the
claims are about (position ids, log-probabilities and the
`num_return_sequences > 1` repetition are untouched by the claims and
omitted; the model covers `num_return_sequences = 1`). On the
budget-forcing branch (line 201) the source calls `budget_forcing_gen`
without binding its result (line 202), then reads the never-assigned local
`output_seqs` at line 230, which raises `UnboundLocalError`. -/
def generate_minibatch (gen : GenFn) (vocab : List (String × Nat))
    (tok_eos pad_token_id min_budget max_budget nlTok waitTok commaTok : Nat)
    (validate do_budget_forcing : Bool) (response_length : Nat)
    (idx attention_mask : Batch) (fuel : Nat) : Except MBErr Batch :=
  let prompt_length := cols idx
  if !validate && do_budget_forcing then
    match (budget_forcing_gen gen vocab tok_eos min_budget max_budget
        nlTok waitTok commaTok idx attention_mask fuel).1 with
    | .error e => .error (.bf e)   -- an exception inside the call propagates
    | .ok _ =>
      -- the returned batch is discarded; line 230 reads the unbound local
      .error .unboundLocalError
  else
    let output_seqs := gen idx attention_mask response_length false
    -- pad every row to prompt_length + response_length (lines 240-248)
    let sequence_length := prompt_length + response_length
    .ok (output_seqs.map (fun row =>
      row ++ List.replicate (sequence_length - row.length) pad_token_id))

/-! ## llm.py — _run_engine -/

/-- One `RequestOutput` surfaced by a vLLM engine step: the request id, the
generated token ids of its first completion (`output.outputs[0].token_ids`,
prompt tokens excluded), and the finished flag. -/
structure StepOut where
  request_id : Nat
  token_ids : List Nat
  finished : Bool
  deriving DecidableEq, Repr

/-- The budget-forcing mutation of `_run_engine` (llm.py lines 331-337):
when budget forcing is on, the response is still below `min_budget`, it has
at least 3 tokens, and its last 3 tokens are a known think triple, the
slice assignment `token_ids[-3:] = tuple(token_ids[-3:] +
self.replacement_tokens)` rewrites the last three positions to the six
tokens "terminator triple followed by the replacement run". -/
def spliceThinkTail (think_tokens : Batch) (repl : List Nat) (doBF : Bool)
    (min_budget : Nat) (t : List Nat) : List Nat :=
  if doBF && decide (t.length < min_budget) && decide (3 ≤ t.length)
      && think_tokens.contains (lastThree t) then
    t.take (t.length - 3) ++ (lastThree t ++ repl)
  else t

/-- The collection loop of `_run_engine` (llm.py lines 322-354): the opaque
engine is a finite script of step outputs; every surfaced output is put
through the budget-forcing mutation and, when finished, collected. -/
def run_engine_collect (think_tokens : Batch) (repl : List Nat) (doBF : Bool)
    (min_budget : Nat) (steps : List (List StepOut)) : List StepOut :=
  steps.flatMap (fun step =>
    (step.map (fun o =>
      { o with token_ids :=
          spliceThinkTail think_tokens repl doBF min_budget o.token_ids })).filter
      (fun o => o.finished))

/-- Stable insertion into a list sorted by ascending request id. -/
def insertByReqId (o : StepOut) : List StepOut → List StepOut
  | [] => [o]
  | x :: xs =>
    if x.request_id ≤ o.request_id then x :: insertByReqId o xs
    else o :: x :: xs

/-- The final `sorted(outputs, key=lambda x: int(x.request_id))` of
llm.py line 361. -/
def sortByReqId (l : List StepOut) : List StepOut :=
  l.foldl (fun acc o => insertByReqId o acc) []

/-- Model of `_run_engine` (llm.py lines 291-362) up to the point where the
collected, request-id-sorted outputs are handed to
`_post_process_outputs`. -/
def run_engine (think_tokens : Batch) (repl : List Nat) (doBF : Bool)
    (min_budget : Nat) (steps : List (List StepOut)) : List StepOut :=
  sortByReqId (run_engine_collect think_tokens repl doBF min_budget steps)

/-- Model of the token-id half of `_post_process_outputs` (llm.py lines
374-394): right-pad every collected response to the longest one with the
pad token. -/
def post_process_outputs (pad : Nat) (outs : List StepOut) : Batch :=
  let mx := (outs.map (fun o => o.token_ids.length)).foldr max 0
  outs.map (fun o => o.token_ids ++ List.replicate (mx - o.token_ids.length) pad)

/-! ## Helper lemmas -/

/-- Comparing the last tokens with the builtin type `int` marks no row:
the mask produced by `get_matching_eos_mask` is identically false. -/
theorem eos_mask_all_false (b : Batch) (e : Nat) :
    get_matching_eos_mask b e = b.map (fun _ => false) := rfl

theorem allSomeMap_eq_map {α β : Type} (l : List α) (f : α → Option β)
    (g : α → β) (h : ∀ a ∈ l, f a = some (g a)) :
    allSomeMap l f = some (l.map g) := by
  induction l with
  | nil => rfl
  | cons a as ih =>
    have ha := h a (by simp)
    have has := ih (fun x hx => h x (by simp [hx]))
    simp [allSomeMap, ha, has]

theorem lastThree_len3 (row : List Nat) (h : 3 ≤ row.length) :
    (lastThree row).length = 3 := by
  simp only [lastThree, List.length_drop]
  omega

theorem lastThree_append3 (xs : List Nat) (a b c : Nat) :
    lastThree (xs ++ [a, b, c]) = [a, b, c] := by
  simp only [lastThree, List.length_append, List.length_cons, List.length_nil]
  have : xs.length + (0 + 1 + 1 + 1) - 3 = xs.length := by omega
  rw [this, List.drop_left]

theorem bcastEqAll_len3 (tail pat : List Nat) (ht : tail.length = 3)
    (hp : pat.length = 3) : bcastEqAll tail pat = some (tail == pat) := by
  simp [bcastEqAll, ht, hp]

theorem any_id_map_beq (l : List (List Nat)) (a : List Nat) :
    (l.map (fun x => a == x)).any id = decide (a ∈ l) := by
  induction l with
  | nil => rfl
  | cons x xs ih =>
    have hx : (a == x) = decide (a = x) := by
      by_cases h : a = x <;> simp [h]
    simp [ih, hx]

/-- Rowwise characterization of `get_matching_seq_mask` on batches whose
rows all have at least 3 tokens, against a set of 3-token patterns: the
entry for a row is true iff its last three tokens are one of the
patterns. -/
theorem seq_mask_of_len3 (rows pats : Batch) (hr : ∀ r ∈ rows, 3 ≤ r.length)
    (hp : ∀ p ∈ pats, p.length = 3) :
    get_matching_seq_mask rows pats
      = some (rows.map fun r => decide (lastThree r ∈ pats)) := by
  unfold get_matching_seq_mask
  apply allSomeMap_eq_map
  intro row hrow
  have h3 : (lastThree row).length = 3 := lastThree_len3 row (hr row hrow)
  rw [allSomeMap_eq_map pats _ (fun pat => lastThree row == pat)
    (fun p hp' => bcastEqAll_len3 _ _ h3 (hp p hp'))]
  simpa using any_id_map_beq pats (lastThree row)

/-! ## C4 -/

/-- C4. The claim says `get_matching_eos_mask` is true exactly for
sequences whose last token equals the given eos id. On the code this fails:
line 9 of stop_criteria.py compares the last tokens with the builtin type
`int` instead of the `eos` argument, so the mask entry is false even for a
batch `[[7]]` with eos id `7`, where the spec ( `matchEos` ) demands
true. -/
theorem get_matching_eos_mask_ignores_eos :
    get_matching_eos_mask [[7]] 7 = [false] ∧ matchEos_spec [[7]] 7 = [true] := by
  decide

/-! ## C7 -/

/-- C7. The claim says that after a terminator splice the 3 positions that
held the terminator hold the replacement run and the terminator triple is
gone. On the vLLM path this fails: `_run_engine` assigns
`token_ids[-3:] = tuple(token_ids[-3:] + replacement)`, appending the
replacement after the terminator. At `token_ids = [9, 5, 6, 7]` with think
triple `[5, 6, 7]` and replacement `[100, 14190, 11]`, the result keeps
`[5, 6, 7]` at the three positions that held the terminator. -/
theorem vllm_splice_keeps_terminator :
    spliceThinkTail [[5, 6, 7]] [100, 14190, 11] true 300 [9, 5, 6, 7]
        = [9, 5, 6, 7, 100, 14190, 11]
    ∧ ((spliceThinkTail [[5, 6, 7]] [100, 14190, 11] true 300
        [9, 5, 6, 7]).drop 1).take 3 = [5, 6, 7]
    ∧ ([5, 6, 7] : List Nat) ≠ [100, 14190, 11] := by
  decide

/-! ## C3 -/

/-- C3. The claim says every request of a completed budget-forced rollout
has between `min_budget` and `max_budget` newly generated tokens. The vLLM
`_run_engine` violates the lower bound (contradicting its own docstring
"ensure that the number of newly generated tokens for each sequence is
>= min_budget"): with budget forcing on and `min_budget = 300`, an engine
whose single request finishes with the 1-token response `[7]` (no think
tail to splice) is collected and returned with 1 < 300 generated tokens. -/
theorem run_engine_below_min_budget :
    run_engine [[0, 26865, 2]] [100, 14190, 11] true 300
        [[⟨0, [7], true⟩]] = [⟨0, [7], true⟩]
    ∧ ([7] : List Nat).length < 300 := by
  decide

/-! ## C5 -/

/-- C5 counterexample. The claim says that on a vocabulary with no token
ending in `"</"` the terminator-pattern construction succeeds without
crashing. On the code `MatchingTokensStoppingCriteria.__init__` calls
`torch.stack` on the empty candidate product, which raises: at the
two-token vocabulary `[("a", 0), (">", 1)]` (no token ends with `"</"`)
construction fails. -/
theorem stopping_criteria_init_crashes_on_empty :
    matchingTokensStoppingCriteria_init [("a", 0), (">", 1)] = none := by
  rfl

/-- C5 amended. If either candidate set of the vocabulary scan is empty,
the vLLM wrapper's pattern list (`think_combos`, built as a plain Python
list in `LLM.__init__`) is empty and its membership match always returns
false — the documented degraded mode — but `MatchingTokensStoppingCriteria.__init__`
crashes on `torch.stack` of the empty list instead of succeeding. -/
theorem empty_candidates_degraded (vocab : List (String × Nat))
    (h : left_matching_token_ids vocab = [] ∨ right_matching_token_ids vocab = []) :
    matchingTokensStoppingCriteria_init vocab = none
    ∧ think_combos vocab = []
    ∧ ∀ tail, decide (tail ∈ think_combos vocab) = false := by
  have hcombos : think_combos vocab = [] := by
    unfold think_combos
    rcases h with h | h <;> simp [h]
  refine ⟨?_, hcombos, ?_⟩
  · unfold matchingTokensStoppingCriteria_init
    simp [hcombos]
  · intro tail
    simp [hcombos]

/-- C5 witness: the amended statement evaluated at the concrete degenerate
vocabulary `[("a", 0), (">", 1)]`. -/
theorem empty_candidates_degraded_witness :
    matchingTokensStoppingCriteria_init [("a", 0), (">", 1)] = none
    ∧ think_combos [("a", 0), (">", 1)] = [] := by
  have h := empty_candidates_degraded [("a", 0), (">", 1)] (Or.inl (by rfl))
  exact ⟨h.1, h.2.1⟩

/-! ## C6 -/

/-- C6 counterexample. The claim says sequences shorter than 3 tokens are
non-matching. On the code broadcasting makes the length-1 batch `[[5]]`
match the pattern `[5, 5, 5]`: `get_matching_seq_mask` returns true where
the claim demands false. -/
theorem seq_mask_matches_short_row :
    get_matching_seq_mask [[5]] [[5, 5, 5]] = some [true]
    ∧ ([5] : List Nat).length < 3 := by
  decide

/-- C6 amended. For batches whose sequences all have length at least 3 and
pattern sets of token triples, `get_matching_seq_mask` marks sequence `i`
exactly when its last 3 tokens equal some pattern in the set; in particular
a sequence of length exactly 3 whose tokens form a pattern is matching.
(Sequences shorter than 3 are not defined as non-matching: broadcasting can
mark a length-1 sequence as matching, and a length-2 batch is a runtime
shape error.) -/
theorem seq_mask_correct_ge3 (rows pats : Batch)
    (hr : ∀ r ∈ rows, 3 ≤ r.length) (hp : ∀ p ∈ pats, p.length = 3) :
    get_matching_seq_mask rows pats
      = some (rows.map fun r => decide (lastThree r ∈ pats)) :=
  seq_mask_of_len3 rows pats hr hp

/-- C6 witness: the amended statement evaluated at a length-4 row whose
last three tokens are the single pattern, including the length-exactly-3
case through the tail. -/
theorem seq_mask_correct_ge3_witness :
    get_matching_seq_mask [[4, 0, 26865, 2], [0, 26865, 2]] [[0, 26865, 2]]
      = some [true, true] := by
  have h := seq_mask_correct_ge3 [[4, 0, 26865, 2], [0, 26865, 2]]
    [[0, 26865, 2]] (by decide) (by decide)
  rw [h]
  rfl

/-! ## C8 -/

/-- C8. In a round of the Forcing loop, for a sequence whose tail both
matches a terminator pattern (its entry of the sequence mask is true) and
ends with the end-of-sequence token, terminator splicing takes precedence:
after the two assignment lines 97-98 of hf_rollout.py, the row is its
prefix followed exactly by the replacement run `[\n, Wait, ,]`, and the
EOS replacement (line 98, whose mask marks no row) has overwritten none of
the tokens written by the terminator splice. -/
theorem terminator_splice_precedence (combos : Batch) (tok_eos nlT w cm : Nat)
    (b : Batch) (mask : List Bool) (i : Nat) (row : List Nat)
    (hmask : get_matching_seq_mask b combos = some mask)
    (hi : mask.get? i = some true)
    (hrow : b.get? i = some row)
    (heos : row.getLast? = some tok_eos) :
    (applySplices [nlT, w, cm] nlT b mask (get_matching_eos_mask b tok_eos)).get? i
      = some (row.take (row.length - 3) ++ [nlT, w, cm])
    ∧ lastThree (row.take (row.length - 3) ++ [nlT, w, cm]) = [nlT, w, cm] := by
  have hem : (get_matching_eos_mask b tok_eos).get? i = some false := by
    rw [eos_mask_all_false, List.get?_map, hrow]
    rfl
  have hzip2 : (mask.zip (get_matching_eos_mask b tok_eos)).get? i
      = some (true, false) :=
    (List.get?_zip_eq_some _ _ _ _).mpr ⟨hi, hem⟩
  have hzip : (b.zip (mask.zip (get_matching_eos_mask b tok_eos))).get? i
      = some (row, (true, false)) :=
    (List.get?_zip_eq_some _ _ _ _).mpr ⟨hrow, hzip2⟩
  constructor
  · unfold applySplices
    rw [List.get?_map, hzip]
    rfl
  · exact lastThree_append3 _ _ _ _

/-- C8 witness: the precedence statement evaluated at the one-row batch
`[[0, 26865, 2]]` whose tail is the single pattern and whose last token is
the eos id 2. -/
theorem terminator_splice_precedence_witness :
    (applySplices [100, 14190, 11] 100 [[0, 26865, 2]] [true]
        (get_matching_eos_mask [[0, 26865, 2]] 2)).get? 0
      = some [100, 14190, 11]
    ∧ lastThree [100, 14190, 11] = [100, 14190, 11] := by
  have h := terminator_splice_precedence [[0, 26865, 2]] 2 100 14190 11
    [[0, 26865, 2]] [true] 0 [0, 26865, 2] (by decide) (by decide) (by decide)
    (by decide)
  simpa using h

/-! ## C9 -/

theorem bfBody_ne_assert (gen : GenFn) (combos : Batch) (tok_eos : Nat)
    (repl : List Nat) (nlT mx : Nat) (st : LoopSt) :
    bfBody gen combos tok_eos repl nlT mx st ≠ .error .assertionError := by
  unfold bfBody
  cases get_matching_seq_mask st.output_seqs combos <;> simp

theorem bfLoop_ne_assert (gen : GenFn) (combos : Batch) (tok_eos : Nat)
    (repl : List Nat) (nlT mx mb cur : Nat) :
    ∀ fuel st,
      (bfLoop gen combos tok_eos repl nlT mx mb cur fuel st).1
        ≠ .error .assertionError := by
  intro fuel
  induction fuel with
  | zero =>
    intro st
    by_cases h : cur < mb <;> simp [bfLoop, h]
  | succ f ih =>
    intro st
    by_cases h : cur < mb
    · cases hbody : bfBody gen combos tok_eos repl nlT mx st with
      | error e =>
        have hne := bfBody_ne_assert gen combos tok_eos repl nlT mx st
        rw [hbody] at hne
        simp [bfLoop, h, hbody]
        simpa using hne
      | ok st' => simp [bfLoop, h, hbody, ih st']
    · simp [bfLoop, h]

theorem bfFinish_ne_assert (gen : GenFn) (maxb cur : Nat)
    (r : Except BFErr LoopSt × Nat) (h : r.1 ≠ .error .assertionError) :
    (bfFinish gen maxb cur r).1 ≠ .error .assertionError := by
  rcases r with ⟨res, n⟩
  cases res with
  | error e =>
    simp only [bfFinish]
    simpa using h
  | ok st => simp [bfFinish]

/-- C9. `budget_forcing_gen` raises the configuration assertion exactly
when `max_budget - min_budget ≤ 128` (line 60 of hf_rollout.py), and when
it does, it does so before any generator invocation: the result is the
assertion error with a generator-call count of zero, for every
generator. -/
theorem budget_assert_iff_margin (gen : GenFn) (vocab : List (String × Nat))
    (tok_eos minb maxb nl w cm : Nat) (inp attn : Batch) (fuel : Nat) :
    ((budget_forcing_gen gen vocab tok_eos minb maxb nl w cm inp attn fuel).1
        = .error .assertionError ↔ maxb - minb ≤ 128)
    ∧ (maxb - minb ≤ 128 →
        budget_forcing_gen gen vocab tok_eos minb maxb nl w cm inp attn fuel
          = (.error .assertionError, 0)) := by
  by_cases hm : 128 < maxb - minb
  · have hne : (budget_forcing_gen gen vocab tok_eos minb maxb nl w cm inp
        attn fuel).1 ≠ .error .assertionError := by
      unfold budget_forcing_gen
      rw [if_pos hm]
      cases hc : matchingTokensStoppingCriteria_init vocab with
      | none => simp
      | some combos =>
        exact bfFinish_ne_assert _ _ _ _
          (bfLoop_ne_assert _ _ _ _ _ _ _ _ fuel _)
    exact ⟨⟨fun h => absurd h hne, fun hle => absurd hle (by omega)⟩,
      fun hle => absurd hle (by omega)⟩
  · have heq : budget_forcing_gen gen vocab tok_eos minb maxb nl w cm inp
        attn fuel = (.error .assertionError, 0) := by
      unfold budget_forcing_gen
      rw [if_neg hm]
    exact ⟨⟨fun _ => by omega, fun _ => by rw [heq]⟩, fun _ => heq⟩

/-- C9 witness: at `min_budget = 300`, `max_budget = 400` (margin 100), the
call fails with the assertion error and zero generator invocations. -/
theorem budget_assert_iff_margin_witness :
    budget_forcing_gen (fun inp _ _ _ => inp) [] 2 300 400 100 14190 11
      [[1]] [[1]] 3 = (.error .assertionError, 0) :=
  (budget_assert_iff_margin (fun inp _ _ _ => inp) [] 2 300 400 100 14190 11
    [[1]] [[1]] 3).2 (by norm_num)

/-! ## C10 -/

/-- C10. The wrapper constructors succeed only when the tokenizer encodes
`"Wait"` as exactly one token: whenever the encoding has a different
length, both `HFRollout.__init__` and the vLLM `LLM.__init__` fail with the
assertion error (raised inside the constructor, before any generation),
and on success the replacement run is exactly the triple
`[newline id, Wait id, comma id]` read off the encodings. -/
theorem wrapper_init_wait_assert (encode : String → List Nat)
    (vocab : List (String × Nat)) :
    ((encode "Wait").length ≠ 1 →
        hfRollout_init encode = .error .assertionError
        ∧ llm_init vocab encode = .error .assertionError)
    ∧ (∀ r, hfRollout_init encode = .ok r →
        (encode "Wait").length = 1
        ∧ r = ((encode "\n").headD 0, (encode "Wait").headD 0,
            (encode ",").headD 0))
    ∧ (∀ tt repl, llm_init vocab encode = .ok (tt, repl) →
        (encode "Wait").length = 1
        ∧ repl = [(encode "\n").headD 0, (encode "Wait").headD 0,
            (encode ",").headD 0]) := by
  refine ⟨fun h => ?_, fun r hr => ?_, fun tt repl hr => ?_⟩
  · unfold hfRollout_init llm_init
    rw [if_neg h, if_neg h]
    exact ⟨rfl, rfl⟩
  · by_cases h : (encode "Wait").length = 1
    · unfold hfRollout_init at hr
      rw [if_pos h] at hr
      refine ⟨h, ?_⟩
      cases hnl : encode "\n" with
      | nil =>
        rw [hnl] at hr
        cases hc : encode "," <;> rw [hc] at hr <;> simp at hr
      | cons a as =>
        cases hc : encode "," with
        | nil =>
          rw [hnl, hc] at hr
          simp at hr
        | cons b bs =>
          rw [hnl, hc] at hr
          simp only [Except.ok.injEq] at hr
          rw [← hr]
          rfl
    · unfold hfRollout_init at hr
      rw [if_neg h] at hr
      simp at hr
  · by_cases h : (encode "Wait").length = 1
    · unfold llm_init at hr
      rw [if_pos h] at hr
      refine ⟨h, ?_⟩
      cases hnl : encode "\n" with
      | nil =>
        rw [hnl] at hr
        cases hc : encode "," <;> rw [hc] at hr <;> simp at hr
      | cons a as =>
        cases hc : encode "," with
        | nil =>
          rw [hnl, hc] at hr
          simp at hr
        | cons b bs =>
          rw [hnl, hc] at hr
          simp only [Except.ok.injEq, Prod.mk.injEq] at hr
          rw [← hr.2]
          rfl
    · unfold llm_init at hr
      rw [if_neg h] at hr
      simp at hr

/-- A tokenizer whose every encoding has two tokens, in particular
`"Wait"`. -/
def cEncodeBad : String → List Nat := fun _ => [1, 2]

/-- C10 witness: a tokenizer encoding `"Wait"` as two tokens makes both
constructors fail with the assertion error. -/
theorem wrapper_init_wait_assert_witness :
    hfRollout_init cEncodeBad = .error .assertionError
    ∧ llm_init [] cEncodeBad = .error .assertionError :=
  (wrapper_init_wait_assert cEncodeBad []).1 (by decide)

/-! ## C1 -/

/-- A concrete generator honouring the generate contract: every call
appends `min max_new_tokens 5` copies of token 9 to each row. -/
def cGen : GenFn := fun inp _ k _ =>
  inp.map (fun row => row ++ List.replicate (min k 5) 9)

/-- A concrete two-token vocabulary with nonempty candidate sets:
`"</"` itself and `">"` itself. -/
def cVocab : List (String × Nat) := [("</", 0), (">", 2)]

theorem spliceRowStep_len_ge3 (a b c nlT : Nat) (sm em : Bool)
    (row : List Nat) (h : 3 ≤ row.length) :
    3 ≤ (spliceRowStep [a, b, c] nlT sm em row).length := by
  cases sm <;> cases em <;>
    simp [spliceRowStep, spliceTerminatorRow, spliceEosRow,
      List.length_append, List.length_take] <;>
    omega

/-- When the guard variable is below the minimum budget and the body keeps
succeeding (preserving an invariant), the Forcing loop runs every iteration
the fuel allows and still reports the guard true: the source loop, which
has no fuel, never exits. -/
theorem bfLoop_stuck (gen : GenFn) (combos : Batch) (tok_eos : Nat)
    (repl : List Nat) (nlT mx mb cur : Nat) (P : LoopSt → Prop)
    (hcur : cur < mb)
    (hbody : ∀ st, P st →
      ∃ st', bfBody gen combos tok_eos repl nlT mx st = .ok st' ∧ P st') :
    ∀ fuel st, P st →
      bfLoop gen combos tok_eos repl nlT mx mb cur fuel st
        = (.error .outOfFuel, fuel) := by
  intro fuel
  induction fuel with
  | zero =>
    intro st _
    simp [bfLoop, hcur]
  | succ f ih =>
    intro st hP
    obtain ⟨st', hok, hP'⟩ := hbody st hP
    simp [bfLoop, hcur, hok, ih st' hP']

/-- For the concrete generator and pattern set, the Forcing-loop body
always succeeds and keeps every row at least 3 tokens long. -/
theorem cGen_body_ok (mx : Nat) (st : LoopSt)
    (hP : ∀ r ∈ st.output_seqs, 3 ≤ r.length) :
    ∃ st', bfBody cGen [[0, 26865, 2]] 2 [100, 14190, 11] 100 mx st = .ok st'
      ∧ ∀ r ∈ st'.output_seqs, 3 ≤ r.length := by
  unfold bfBody
  rw [seq_mask_of_len3 st.output_seqs [[0, 26865, 2]] hP (by decide)]
  refine ⟨_, rfl, ?_⟩
  intro r hr
  simp only [cGen, List.mem_map] at hr
  obtain ⟨r0, hr0, hre⟩ := hr
  subst hre
  simp only [applySplices, List.mem_map] at hr0
  obtain ⟨⟨p1, psm, pem⟩, hp, hpe⟩ := hr0
  subst hpe
  have hmem : p1 ∈ st.output_seqs := (List.mem_zip hp).1
  have h2 := spliceRowStep_len_ge3 100 14190 11 100 psm pem p1 (hP p1 hmem)
  simp only [List.length_append]
  omega

/-- C1. The claim says the Forcing loop terminates — either every request
reaches `min_budget`, or the controller fails with a progress-stall error.
On the code the guard variable `current_used_budget` is computed once
before the loop (hf_rollout.py line 90) and never reassigned inside it, so
when the first round produces fewer than `min_budget` new tokens the loop
can never exit and no error of any kind is raised: for the concrete run
below (prompt length 4, first round yields 5 new tokens, `min_budget =
200`, `max_budget = 400`, margin 200 > 128), every fuel bound is exhausted
with the guard still true, after `fuel + 1` generator calls. -/
theorem budget_forcing_loop_diverges :
    ∀ fuel, budget_forcing_gen cGen cVocab 2 200 400 100 14190 11
      [[1, 1, 1, 1]] [[1, 1, 1, 1]] fuel = (.error .outOfFuel, fuel + 1) := by
  intro fuel
  have hl := bfLoop_stuck cGen [[0, 26865, 2]] 2 [100, 14190, 11] 100 267 200 5
    (fun st => ∀ r ∈ st.output_seqs, 3 ≤ r.length) (by omega)
    (cGen_body_ok 267) fuel
    ⟨[[1, 1, 1, 1, 9, 9, 9, 9, 9]], [[1, 1, 1, 1]], 4⟩ (by decide)
  have key : budget_forcing_gen cGen cVocab 2 200 400 100 14190 11
      [[1, 1, 1, 1]] [[1, 1, 1, 1]] fuel
      = bfFinish cGen 400 5
          (bfLoop cGen [[0, 26865, 2]] 2 [100, 14190, 11] 100 267 200 5 fuel
            ⟨[[1, 1, 1, 1, 9, 9, 9, 9, 9]], [[1, 1, 1, 1]], 4⟩) := by rfl
  rw [key, hl]
  rfl

/-! ## C2 -/

/-- C2. The claim says that with budget forcing enabled the rollout entry
point returns the budget-forced sequences. On the code it cannot: line 202
of hf_rollout.py calls `budget_forcing_gen` without binding its result and
line 230 reads the never-assigned local `output_seqs`, raising
`UnboundLocalError`. Concretely, with `min_budget = 1`, `max_budget = 400`,
the inner budget-forced generation succeeds and returns the grown batch,
yet `_generate_minibatch` fails instead of returning it. -/
theorem generate_minibatch_unbound_local :
    (budget_forcing_gen cGen cVocab 2 1 400 100 14190 11
        [[1, 1, 1, 1]] [[1, 1, 1, 1]] 3).1
      = .ok [[1, 1, 1, 1, 9, 9, 9, 9, 9, 9, 9, 9, 9, 9]]
    ∧ generate_minibatch cGen cVocab 2 0 1 400 100 14190 11 false true 50
        [[1, 1, 1, 1]] [[1, 1, 1, 1]] 3 = .error .unboundLocalError :=
  ⟨rfl, rfl⟩

end S1
